import Mathlib

/-!
Verification development for the Obsidian Note Minimap plugin.

The definitions below are a shallow embedding of the plugin sources:
the renderer (`MinimapRenderer`), the settings model (`types`), and the
plugin controller (`main`). JavaScript numbers are modelled as rationals
(`ℚ`); line texts are modelled as lists of characters; DOM side effects
(canvas painting, listener registration) are modelled as explicit state.
-/

namespace Minimap

/-! ## Settings model (src `types`: `MinimapSettings`, `DEFAULT_SETTINGS`) -/

structure MinimapSettings where
  disabledFiles : List String
  width : ℚ
  lineHeight : ℚ
  minimapOpacity : ℚ
  showMinimap : Bool
  showHeaders : Bool
  showLists : Bool
  showCodeBlocks : Bool
  headerColor : String
  textColor : String
  codeBlockColor : String
  indicatorColor : String
  indicatorOpacity : ℚ
  header1Color : String
  header2Color : String
  header3Color : String
  header4Color : String
  header5Color : String
  header6Color : String
  imageColor : String
  tableColor : String
  minElementWidth : ℚ
  minElementHeight : ℚ
  embedColor : String
  density : ℚ
  minimapScaling : ℚ
  lineSpacing : ℚ
  textDensity : ℚ
deriving DecidableEq

def DEFAULT_SETTINGS : MinimapSettings where
  disabledFiles := []
  width := 150
  lineHeight := 4
  minimapOpacity := 0.5
  showMinimap := true
  showHeaders := true
  showLists := true
  showCodeBlocks := true
  headerColor := "#00BADA"
  textColor := "#808080"
  codeBlockColor := "#0000FF"
  indicatorColor := "#4444FF"
  indicatorOpacity := 0.2
  header1Color := "#FF0000"
  header2Color := "#00FF00"
  header3Color := "#0000FF"
  header4Color := "#FFFF00"
  header5Color := "#FF00FF"
  header6Color := "#00FFFF"
  imageColor := "#A0A0A0"
  tableColor := "#808080"
  minElementWidth := 4
  minElementHeight := 1
  embedColor := "#6A9955"
  density := 1
  minimapScaling := 0.5
  lineSpacing := 1.2
  textDensity := 1.5

/-! ## Line-text helpers (JavaScript string operations used by the renderer) -/

/-- JavaScript `String.prototype.trim` (whitespace stripped from both ends;
we use the ASCII whitespace characters, which cover all inputs of interest). -/
def jsTrim (cs : List Char) : List Char :=
  ((cs.dropWhile Char.isWhitespace).reverse.dropWhile Char.isWhitespace).reverse

/-- Scan for the lazy close `]]` of a wiki embed: the captured text up to the
first `]]`, or `none` when no `]]` occurs in the remainder. -/
def wikiCapture : List Char → Option (List Char)
  | [] => none
  | ']' :: ']' :: _ => some []
  | c :: rest => (wikiCapture rest).map (fun t => c :: t)

/-- JavaScript `content.match(/!\[\[(.*?)\]\]/)`: the capture group of the
first `![[` that is followed by a `]]` (if the first `![[` has no later `]]`,
no later one does either, so the whole match fails). -/
def extractWikiEmbed : List Char → Option (List Char)
  | '!' :: '[' :: '[' :: rest => wikiCapture rest
  | _ :: rest => extractWikiEmbed rest
  | [] => none

/-- Renderer `isImagePath`: lowercase the path and test the image-extension
suffixes. -/
def isImagePath (path : List Char) : Bool :=
  let lower := path.map Char.toLower
  [".png", ".jpg", ".jpeg", ".gif", ".bmp", ".svg", ".webp"].any
    (fun ext => ext.toList.isSuffixOf lower)

/-- JavaScript `content.startsWith("#")`. -/
def headIsHash : List Char → Bool
  | '#' :: _ => true
  | _ => false

/-- Header level from `content.match(/^#+/)`: the length of the leading run
of `#` characters. -/
def leadingHashCount (cs : List Char) : Nat :=
  (cs.takeWhile (fun c => c == '#')).length

/-- JavaScript `content.replace(/^#+\s*/, "")`: when the line starts with
`#`, drop the leading hashes and the following whitespace; otherwise the
anchored regex does not match and the text is unchanged. -/
def stripHeaderPrefix (cs : List Char) : List Char :=
  match cs with
  | '#' :: _ => (cs.dropWhile (fun c => c == '#')).dropWhile Char.isWhitespace
  | _ => cs

/-- JavaScript `content.split("|").filter((c) => c.trim()).length`: the number
of pipe-delimited segments whose trimmed text is nonempty (a nonempty string
is truthy). -/
def cellCount (cs : List Char) : Nat :=
  ((cs.splitOn '|').filter (fun c => !(jsTrim c).isEmpty)).length

/-- JavaScript `content.search(/\S/)` on a line known to contain a
non-whitespace character: the index of the first such character, which equals
the length of the leading whitespace run. (The source applies `|| 0` to the
result; `-1` is truthy, so that quirk only matters on all-whitespace lines,
which never reach the branch that uses it.) -/
def leadingWhitespaceCount (cs : List Char) : Nat :=
  (cs.takeWhile Char.isWhitespace).length

/-! ## Line classification (renderer `update`, per-line branch structure) -/

inductive LineClass where
  | imageEmbed
  | genericEmbed
  | header (level : Nat)
  | codeFence
  | tableRow (cells : Nat)
  | plainText
  | blank
deriving DecidableEq

/-- The per-line branch structure of the paint loop in `MinimapRenderer.update`,
in source order: wiki embed (image or generic), header, code fence, table
row, plain text, blank. The header and code-fence branches are guarded by the
`showHeaders` and `showCodeBlocks` settings exactly as in the source. -/
def classifyLine (showHeaders showCodeBlocks : Bool) (content : List Char) : LineClass :=
  match extractWikiEmbed content with
  | some embedPath => if isImagePath embedPath then .imageEmbed else .genericEmbed
  | none =>
    if headIsHash content && showHeaders then
      .header (leadingHashCount content)
    else if "```".toList.isPrefixOf (jsTrim content) && showCodeBlocks then
      .codeFence
    else if content.contains '|' then
      .tableRow (cellCount content)
    else if (jsTrim content).length > 0 then
      .plainText
    else
      .blank

end Minimap

/-- Claim C2: the paint-time classification (at the default visibility flags,
which the cited examples presuppose) assigns exactly one of the classes
image-embed, generic-embed, header, code-fence, table-row, plain-text, blank
by first-match-wins; in particular `![[photo.png]]` is image-embed,
`## Title` is a level-2 header, a line whose trimmed text starts with three
backticks is code-fence, `a | b | c` is a table-row with three cells, and the
empty line is blank. -/
theorem Minimap.classifyLine_examples :
    Minimap.classifyLine true true "![[photo.png]]".toList = .imageEmbed ∧
    Minimap.classifyLine true true "## Title".toList = .header 2 ∧
    Minimap.classifyLine true true " ```rust ".toList = .codeFence ∧
    Minimap.classifyLine true true "a | b | c".toList = .tableRow 3 ∧
    Minimap.classifyLine true true "".toList = .blank ∧
    (∀ content : List Char, ∃! c : Minimap.LineClass,
      Minimap.classifyLine true true content = c) :=
  ⟨by decide, by decide, by decide, by decide, by decide,
   fun content => ⟨Minimap.classifyLine true true content, rfl, fun _ h => h.symm⟩⟩

namespace Minimap

/-! ## Renderer state model

The editor host (`MarkdownView`, the `.cm-scroller` element and the
CodeMirror instance) is modelled by explicit state records; absence of a
capability (view is not a markdown view, no scroller element, no CodeMirror
instance) is an `Option.none`. The canvas raster is modelled by its
dimension attributes, its display/opacity style, and the ordered list of
paint calls issued into its 2d context since the last reset (assigning
`canvas.width`/`canvas.height` resets the raster and its context state, so
each full repaint replaces the content list). Paint coordinates are recorded
in CSS pixels, before the uniform `ctx.scale(dpr, dpr)` transform. -/

/-- One CodeMirror line block: text plus layout geometry
(`lineBlockAt(line.from).top` and `.height`). -/
structure LineBlock where
  text : List Char
  top : ℚ
  height : ℚ
deriving DecidableEq

/-- The `.cm-scroller` element geometry read by the renderer. -/
structure ScrollerState where
  scrollHeight : ℚ
  scrollTop : ℚ
  clientHeight : ℚ
deriving DecidableEq

/-- The CodeMirror instance (`(editor as any).cm`): the document lines in
order, each with its layout block. -/
structure CmState where
  lines : List LineBlock
deriving DecidableEq

/-- The editor-side state `update` reads: the scroller geometry, and the
CodeMirror instance when present (`cm` is null-checked separately in the
source, after the canvas has already been resized and cleared). -/
structure EditorState where
  scroller : ScrollerState
  cm : Option CmState
deriving DecidableEq

/-- Ambient browser environment: `window.devicePixelRatio`,
`window.innerHeight`, the computed `--background-primary` color, and the
`ctx.measureText(...).width` facility. -/
structure Env where
  devicePixelRatio : ℚ
  innerHeight : ℚ
  backgroundColor : String
  measureText : List Char → ℚ

/-- A canvas 2d paint call: `fillRect` with the active fill style and global
alpha, or `strokeRect` with the active stroke style, global alpha and line
width. -/
inductive PaintOp where
  | fillRect (color : String) (alpha : ℚ) (x y w h : ℚ)
  | strokeRect (color : String) (alpha : ℚ) (lineWidth : ℚ) (x y w h : ℚ)
deriving DecidableEq

/-- The canvas element: backing-store pixel dimensions, CSS dimensions, the
`display` style (`block`/`none`), the `--minimap-opacity` style property,
and the paint calls recorded on the current raster. -/
structure Canvas where
  widthPx : ℚ
  heightPx : ℚ
  styleWidth : ℚ
  styleHeight : ℚ
  displayed : Bool
  opacityVar : ℚ
  content : List PaintOp
deriving DecidableEq

/-- JavaScript `Math.floor` on the rationals of interest. -/
def jsFloor (q : ℚ) : ℚ := ((⌊q⌋ : ℤ) : ℚ)

/-- Renderer `update`: `displayWidth = Math.floor(width * minimapScaling)`. -/
def displayWidthOf (s : MinimapSettings) : ℚ :=
  jsFloor (s.width * s.minimapScaling)

/-- Renderer `update`:
`displayHeight = Math.floor((window.innerHeight - 32) * minimapScaling)`. -/
def displayHeightOf (s : MinimapSettings) (env : Env) : ℚ :=
  jsFloor ((env.innerHeight - 32) * s.minimapScaling)

/-- The canvas right after the sizing and background steps of `update`:
backing store scaled by the device pixel ratio, CSS size set to the display
size, display `block`, opacity property set, and the raster reset to the
single background `fillRect`. -/
def sizedCanvas (s : MinimapSettings) (env : Env) : Canvas :=
  let dw := displayWidthOf s
  let dh := displayHeightOf s env
  { widthPx := dw * env.devicePixelRatio
    heightPx := dh * env.devicePixelRatio
    styleWidth := dw
    styleHeight := dh
    displayed := true
    opacityVar := s.minimapOpacity
    content := [.fillRect env.backgroundColor 1 0 0 dw dh] }

/-- Source `(this.host.settings as any)[header-level-Color] || headerColor`:
the level-specific color for levels 1 to 6, with the generic header color as
fallback when the dynamic lookup yields a falsy value (missing level key or
empty string, both modelled by the empty string). -/
def headerColorFor (s : MinimapSettings) (level : Nat) : String :=
  let c := match level with
    | 1 => s.header1Color
    | 2 => s.header2Color
    | 3 => s.header3Color
    | 4 => s.header4Color
    | 5 => s.header5Color
    | 6 => s.header6Color
    | _ => ""
  if c = "" then s.headerColor else c

/-- One iteration of the per-line paint loop in `update`: compute the scaled
position and height, cull lines outside the surface, then paint per the
classified branch, mirroring the source branch bodies. -/
def paintLine (s : MinimapSettings) (env : Env)
    (displayWidth displayHeight scale effectiveLineHeight : ℚ)
    (lb : LineBlock) : List PaintOp :=
  let y := jsFloor (lb.top * scale)
  let height := max effectiveLineHeight (jsFloor (lb.height * scale))
  if y < -height ∨ y > displayHeight + height then []
  else
    let content := lb.text
    match classifyLine s.showHeaders s.showCodeBlocks content with
    | .imageEmbed =>
      [.fillRect s.imageColor 1 8 y (displayWidth - 16) (height * 1.5)]
    | .genericEmbed =>
      [.fillRect s.embedColor 1 4 y (displayWidth - 8) (height * 2),
       .strokeRect "#000000" 1 1 4 y (displayWidth - 8) (height * 2)]
    | .header level =>
      let headerText := stripHeaderPrefix content
      let headerWidth := min (env.measureText headerText + 16) (displayWidth - 8)
      let headerHeight := max (height * 1.2) 3
      [.fillRect (headerColorFor s level) 1 4 y headerWidth headerHeight]
    | .codeFence =>
      [.fillRect s.codeBlockColor 1 4 y (displayWidth - 8) (max 1.5 height)]
    | .tableRow cells =>
      let tableWidth := min ((cells : ℚ) * 20) (displayWidth - 16)
      [.fillRect s.tableColor 1 8 y tableWidth (max 1 height)]
    | .plainText =>
      let indent := (leadingWhitespaceCount content : ℚ)
      let width := min (((jsTrim content).length : ℚ) * s.textDensity)
        (displayWidth - 8 - indent * s.textDensity)
      let x := jsFloor (4 + indent * s.textDensity)
      [.fillRect s.textColor 1 x y width (max 1 (height * 0.8))]
    | .blank => []

/-- The per-line paint loop over the whole document. The source batches the
loop in chunks of 50 with a `break` past the last line; the net effect is
each line once, in order. -/
def lineOps (s : MinimapSettings) (env : Env)
    (displayWidth displayHeight scale effectiveLineHeight : ℚ)
    (lines : List LineBlock) : List PaintOp :=
  lines.flatMap (paintLine s env displayWidth displayHeight scale effectiveLineHeight)

/-- The viewport indicator step of `update`: filled at `indicatorOpacity` and
outlined at alpha 0.8 with line width 2, only when `indicatorOpacity > 0`. -/
def indicatorOps (s : MinimapSettings) (displayWidth : ℚ)
    (scroller : ScrollerState) (scale : ℚ) : List PaintOp :=
  let indicatorHeight := scroller.clientHeight * scale
  let indicatorY := scroller.scrollTop * scale
  if 0 < s.indicatorOpacity then
    [.fillRect s.indicatorColor s.indicatorOpacity 0 indicatorY displayWidth indicatorHeight,
     .strokeRect s.indicatorColor 0.8 2 0 indicatorY displayWidth indicatorHeight]
  else []

/-- The full repaint path of `update` once the CodeMirror instance is
available: sizing and background, then
`scale = displayHeight / editorElement.scrollHeight` (no guard against a
zero scroll height), the per-line loop, and the viewport indicator. -/
def renderCanvas (s : MinimapSettings) (env : Env)
    (scroller : ScrollerState) (cm : CmState) : Canvas :=
  let base := sizedCanvas s env
  let dw := displayWidthOf s
  let dh := displayHeightOf s env
  let scale := dh / scroller.scrollHeight
  let baseLineHeight := max 1 (jsFloor (s.lineHeight * s.lineSpacing))
  let effectiveLineHeight := max 1 (baseLineHeight * scale)
  { base with content := base.content
      ++ lineOps s env dw dh scale effectiveLineHeight cm.lines
      ++ indicatorOps s dw scroller scale }

/-- `MinimapRenderer.update`, in source order: return unchanged when no
canvas is bound; set the opacity style property; return when the view is not
a markdown view or has no scroller (`ed = none`); hide and return when
`showMinimap` is false; otherwise show, resize, clear, and — when the
CodeMirror instance is present — run the line loop and indicator. -/
def update (s : MinimapSettings) (env : Env) (ed : Option EditorState)
    (c : Option Canvas) : Option Canvas :=
  match c with
  | none => none
  | some cv =>
    match ed with
    | none => some { cv with opacityVar := s.minimapOpacity }
    | some e =>
      if s.showMinimap then
        match e.cm with
        | none => some (sizedCanvas s env)
        | some cm => some (renderCanvas s env e.scroller cm)
      else
        some { cv with opacityVar := s.minimapOpacity, displayed := false }

/-- `MinimapPlugin.isMinimapEnabledForFile`. -/
def isMinimapEnabledForFile (s : MinimapSettings) (filePath : String) : Bool :=
  s.showMinimap && !(s.disabledFiles.contains filePath)

/-- `MinimapRenderer.syncVisibility`: no-op without a canvas; hide when there
is no bound file or the minimap is disabled for it; otherwise show and
repaint. -/
def syncVisibility (s : MinimapSettings) (env : Env) (ed : Option EditorState)
    (file : Option String) (c : Option Canvas) : Option Canvas :=
  match c with
  | none => none
  | some cv =>
    match file with
    | none => some { cv with displayed := false }
    | some path =>
      if isMinimapEnabledForFile s path then
        update s env ed (some { cv with displayed := true })
      else
        some { cv with displayed := false }

/-! ## Click-to-scroll reverse mapping (`MinimapRenderer.scrollToMinimapPosition`) -/

/-- The scroll offset computed by `scrollToMinimapPosition`:
`Math.max(0, Math.min(scrollRatio * totalHeight - viewportHeight / 2,
totalHeight - viewportHeight))` with `scrollRatio = clickY / canvasHeight`. -/
def scrollToMinimapPosition (clickY canvasHeight totalHeight viewportHeight : ℚ) : ℚ :=
  let scrollRatio := clickY / canvasHeight
  max 0 (min (scrollRatio * totalHeight - viewportHeight / 2)
    (totalHeight - viewportHeight))

/-- Modelled from the spec: `clamp(v, lo, hi)` as used by the reverse-mapping
sentence of the specification. -/
def clampSpec (v lo hi : ℚ) : ℚ := max lo (min v hi)

end Minimap

/-- Claim C1: for every click y-coordinate in `[0, surfaceHeight]` with a
positive surface height, the scroll offset computed by
`scrollToMinimapPosition` equals
`clamp(clickY/surfaceHeight * totalContentHeight - viewportHeight/2, 0,
totalContentHeight - viewportHeight)`, and whenever
`totalContentHeight - viewportHeight ≥ 0` it lies in
`[0, totalContentHeight - viewportHeight]`. -/
theorem Minimap.scrollToMinimapPosition_clamp
    (clickY canvasHeight totalHeight viewportHeight : ℚ)
    (_hpos : 0 < canvasHeight) (_h0 : 0 ≤ clickY) (_h1 : clickY ≤ canvasHeight) :
    Minimap.scrollToMinimapPosition clickY canvasHeight totalHeight viewportHeight
      = Minimap.clampSpec (clickY / canvasHeight * totalHeight - viewportHeight / 2)
          0 (totalHeight - viewportHeight) ∧
    (0 ≤ totalHeight - viewportHeight →
      0 ≤ Minimap.scrollToMinimapPosition clickY canvasHeight totalHeight viewportHeight ∧
      Minimap.scrollToMinimapPosition clickY canvasHeight totalHeight viewportHeight
        ≤ totalHeight - viewportHeight) := by
  refine ⟨rfl, fun hnn => ⟨le_max_left _ _, ?_⟩⟩
  exact max_le hnn (min_le_right _ _)

/-- Witness for C1 at clickY = 1, surfaceHeight = 2, totalContentHeight = 100,
viewportHeight = 10. -/
theorem Minimap.scrollToMinimapPosition_clamp_witness :
    (0 : ℚ) < 2 ∧ (0 : ℚ) ≤ 1 ∧ (1 : ℚ) ≤ 2 ∧ (0 : ℚ) ≤ 100 - 10 ∧
    (0 ≤ Minimap.scrollToMinimapPosition 1 2 100 10 ∧
      Minimap.scrollToMinimapPosition 1 2 100 10 ≤ 100 - 10) :=
  ⟨by norm_num, by norm_num, by norm_num, by norm_num,
    (Minimap.scrollToMinimapPosition_clamp 1 2 100 10 (by norm_num) (by norm_num)
      (by norm_num)).2 (by norm_num)⟩

/-- Claim C6: `update()` is idempotent — for every fixed state (settings,
environment, editor state, bound canvas), running it twice produces the same
canvas (hence pixel-identical painted output) as running it once. -/
theorem Minimap.update_idempotent (s : Minimap.MinimapSettings) (env : Minimap.Env)
    (ed : Option Minimap.EditorState) (c : Option Minimap.Canvas) :
    Minimap.update s env ed (Minimap.update s env ed c) = Minimap.update s env ed c := by
  cases c with
  | none => rfl
  | some cv =>
    cases ed with
    | none => rfl
    | some e =>
      by_cases h : s.showMinimap
      · rcases e with ⟨scr, cm⟩
        cases cm <;> simp [Minimap.update, h]
      · simp [Minimap.update, h]

namespace Minimap

/-! ## Concrete fixtures used by witnesses and counterexamples -/

/-- A concrete browser environment: device pixel ratio 1, window height 232,
a fixed background color, and a trivial text-measurement facility. -/
def cexEnv : Env where
  devicePixelRatio := 1
  innerHeight := 232
  backgroundColor := "#FFFFFF"
  measureText := fun _ => 0

/-- A scroller whose total scrollable content height is 0. -/
def cexScroller : ScrollerState where
  scrollHeight := 0
  scrollTop := 0
  clientHeight := 0

/-- A one-line document containing the plain text line `hello`. -/
def cexCm : CmState where
  lines := [{ text := "hello".toList, top := 0, height := 20 }]

/-- Editor state combining the zero-height scroller with the one-line
document. -/
def cexEd : EditorState where
  scroller := cexScroller
  cm := some cexCm

/-- The canvas as created by `attach` before the initial `update`: browser
default backing store 300 by 150, CSS width from the settings, CSS height
`calc(100vh - 50px)`, visible, opacity property set, empty raster. -/
def freshCanvas (s : MinimapSettings) (env : Env) : Canvas where
  widthPx := 300
  heightPx := 150
  styleWidth := s.width
  styleHeight := env.innerHeight - 50
  displayed := true
  opacityVar := s.minimapOpacity
  content := []

/-- Settings equal to the defaults except that the minimap is globally
hidden. -/
def settingsHidden : MinimapSettings := { DEFAULT_SETTINGS with showMinimap := false }

/-- Settings equal to the defaults except that `notes/a.md` is in the
disabled set. -/
def settingsDisabledA : MinimapSettings :=
  { DEFAULT_SETTINGS with disabledFiles := ["notes/a.md"] }

end Minimap

/-- Claim C5: when `showMinimap` is false, `update()` hides the surface and
returns without painting (the raster content is untouched and the canvas
stays bound), and `syncVisibility()` hides the surface whenever the bound
file is in `disabledFiles`, regardless of `showMinimap`. -/
theorem Minimap.visibility_gating :
    (∀ (s : Minimap.MinimapSettings) (env : Minimap.Env) (e : Minimap.EditorState)
        (cv : Minimap.Canvas), s.showMinimap = false →
      Minimap.update s env (some e) (some cv)
        = some { cv with opacityVar := s.minimapOpacity, displayed := false }) ∧
    (∀ (s : Minimap.MinimapSettings) (env : Minimap.Env) (ed : Option Minimap.EditorState)
        (path : String) (cv : Minimap.Canvas), path ∈ s.disabledFiles →
      Minimap.syncVisibility s env ed (some path) (some cv)
        = some { cv with displayed := false }) := by
  constructor
  · intro s env e cv h
    simp [Minimap.update, h]
  · intro s env ed path cv h
    have hc : s.disabledFiles.contains path = true := by
      simpa using h
    have hoff : Minimap.isMinimapEnabledForFile s path = false := by
      simp only [Minimap.isMinimapEnabledForFile, hc, Bool.not_true, Bool.and_false]
    simp [Minimap.syncVisibility, hoff]

/-- Witness for C5: the hidden-settings case at a concrete state, and the
disabled-file case at the file `notes/a.md`. -/
theorem Minimap.visibility_gating_witness :
    Minimap.settingsHidden.showMinimap = false ∧
    "notes/a.md" ∈ Minimap.settingsDisabledA.disabledFiles ∧
    Minimap.update Minimap.settingsHidden Minimap.cexEnv (some Minimap.cexEd)
        (some (Minimap.freshCanvas Minimap.settingsHidden Minimap.cexEnv))
      = some { Minimap.freshCanvas Minimap.settingsHidden Minimap.cexEnv with
          opacityVar := Minimap.settingsHidden.minimapOpacity, displayed := false } ∧
    Minimap.syncVisibility Minimap.settingsDisabledA Minimap.cexEnv (some Minimap.cexEd)
        (some "notes/a.md")
        (some (Minimap.freshCanvas Minimap.settingsDisabledA Minimap.cexEnv))
      = some { Minimap.freshCanvas Minimap.settingsDisabledA Minimap.cexEnv with
          displayed := false } :=
  ⟨rfl, by decide,
    Minimap.visibility_gating.1 Minimap.settingsHidden Minimap.cexEnv Minimap.cexEd
      (Minimap.freshCanvas Minimap.settingsHidden Minimap.cexEnv) rfl,
    Minimap.visibility_gating.2 Minimap.settingsDisabledA Minimap.cexEnv
      (some Minimap.cexEd) "notes/a.md"
      (Minimap.freshCanvas Minimap.settingsDisabledA Minimap.cexEnv) (by decide)⟩

namespace Minimap

/-- Settings used by the zero-height counterexample: the defaults with the
line-spacing and text-density multipliers set to 1 (both within their
documented slider ranges). -/
def cexSettings : MinimapSettings :=
  { DEFAULT_SETTINGS with lineSpacing := 1, textDensity := 1 }

end Minimap

open Minimap in
/-- Counterexample to claim C3 as stated: with a window of height 232 and a
one-line document whose scroller reports a total content height of 0,
`update()` does not skip line painting — the plain-text line `hello` is still
painted (second paint call below), and the division `displayHeight / 0` is
still performed (over `ℚ` it evaluates to 0; in JavaScript to Infinity; in
neither semantics is the loop skipped). -/
theorem Minimap.update_zero_content_height_still_paints :
    Minimap.cexEd.scroller.scrollHeight = 0 ∧
    (Minimap.update cexSettings cexEnv (some cexEd)
        (some (freshCanvas cexSettings cexEnv))).elim [] Minimap.Canvas.content
      = [PaintOp.fillRect "#FFFFFF" 1 0 0 75 100,
         PaintOp.fillRect "#808080" 1 4 0 5 1,
         PaintOp.fillRect "#4444FF" 0.2 0 0 75 0,
         PaintOp.strokeRect "#4444FF" 0.8 2 0 0 75 0] := by
  constructor
  · rfl
  · have hcls : classifyLine true true ['h', 'e', 'l', 'l', 'o'] = .plainText := by decide
    have hlen : (jsTrim ['h', 'e', 'l', 'l', 'o']).length = 5 := by decide
    have hws : leadingWhitespaceCount ['h', 'e', 'l', 'l', 'o'] = 0 := by decide
    simp only [update, renderCanvas, sizedCanvas, displayWidthOf, displayHeightOf,
      lineOps, indicatorOps, cexSettings, cexEnv, cexEd, cexScroller, cexCm,
      DEFAULT_SETTINGS, Option.elim, List.flatMap]
    norm_num [jsFloor, max_def, min_def]
    norm_num [paintLine, hcls, hlen, hws, jsFloor, max_def, min_def]

/-- Claim C3 amended: `update()` computes the scale factor as the surface
height divided by the total content height, but performs the division with no
guard: when the total content height is 0 the line-painting step is not
skipped — the per-line loop still runs over every document line (with the
scale the zero division yields). -/
theorem Minimap.update_no_zero_height_guard
    (s : Minimap.MinimapSettings) (env : Minimap.Env) (scr : Minimap.ScrollerState)
    (cm : Minimap.CmState) (cv : Minimap.Canvas)
    (hshow : s.showMinimap = true) (hzero : scr.scrollHeight = 0) :
    Minimap.update s env (some (Minimap.EditorState.mk scr (some cm))) (some cv)
      = some { (Minimap.sizedCanvas s env) with content :=
          ((Minimap.sizedCanvas s env).content
            ++ Minimap.lineOps s env (Minimap.displayWidthOf s)
                 (Minimap.displayHeightOf s env)
                 (Minimap.displayHeightOf s env / scr.scrollHeight) 1 cm.lines
            ++ Minimap.indicatorOps s (Minimap.displayWidthOf s) scr
                 (Minimap.displayHeightOf s env / scr.scrollHeight)) } := by
  simp only [Minimap.update, hshow, if_true]
  unfold Minimap.renderCanvas
  rw [hzero]
  norm_num

/-- Witness for the amended C3 at the concrete zero-height fixture. -/
theorem Minimap.update_no_zero_height_guard_witness :
    Minimap.DEFAULT_SETTINGS.showMinimap = true ∧
    Minimap.cexScroller.scrollHeight = 0 ∧
    Minimap.update Minimap.DEFAULT_SETTINGS Minimap.cexEnv
        (some (Minimap.EditorState.mk Minimap.cexScroller (some Minimap.cexCm)))
        (some (Minimap.freshCanvas Minimap.DEFAULT_SETTINGS Minimap.cexEnv))
      = some { (Minimap.sizedCanvas Minimap.DEFAULT_SETTINGS Minimap.cexEnv) with content :=
          ((Minimap.sizedCanvas Minimap.DEFAULT_SETTINGS Minimap.cexEnv).content
            ++ Minimap.lineOps Minimap.DEFAULT_SETTINGS Minimap.cexEnv
                 (Minimap.displayWidthOf Minimap.DEFAULT_SETTINGS)
                 (Minimap.displayHeightOf Minimap.DEFAULT_SETTINGS Minimap.cexEnv)
                 (Minimap.displayHeightOf Minimap.DEFAULT_SETTINGS Minimap.cexEnv
                   / Minimap.cexScroller.scrollHeight) 1 Minimap.cexCm.lines
            ++ Minimap.indicatorOps Minimap.DEFAULT_SETTINGS
                 (Minimap.displayWidthOf Minimap.DEFAULT_SETTINGS) Minimap.cexScroller
                 (Minimap.displayHeightOf Minimap.DEFAULT_SETTINGS Minimap.cexEnv
                   / Minimap.cexScroller.scrollHeight)) } :=
  ⟨rfl, rfl,
    Minimap.update_no_zero_height_guard Minimap.DEFAULT_SETTINGS Minimap.cexEnv
      Minimap.cexScroller Minimap.cexCm
      (Minimap.freshCanvas Minimap.DEFAULT_SETTINGS Minimap.cexEnv) rfl rfl⟩

namespace Minimap

/-! ## Persisted settings and `MinimapPlugin.loadSettings` (src `main`) -/

/-- The persisted `disabledFiles` field as found on disk: either an array of
strings or some non-list value (`Array.isArray` is the only test the loader
applies to it). -/
inductive PersistedList where
  | list (xs : List String)
  | nonList
deriving DecidableEq

/-- A persisted settings record: every known key optionally present. Keys the
loader copies verbatim are modelled at their well-typed shape; only
`disabledFiles` gets a shape check in the source. Unknown extra keys are
copied onto the settings object by the loader but never read back through the
`MinimapSettings` shape, so they are not modelled. -/
structure PersistedData where
  disabledFiles : Option PersistedList
  width : Option ℚ
  lineHeight : Option ℚ
  minimapOpacity : Option ℚ
  showMinimap : Option Bool
  showHeaders : Option Bool
  showLists : Option Bool
  showCodeBlocks : Option Bool
  headerColor : Option String
  textColor : Option String
  codeBlockColor : Option String
  indicatorColor : Option String
  indicatorOpacity : Option ℚ
  header1Color : Option String
  header2Color : Option String
  header3Color : Option String
  header4Color : Option String
  header5Color : Option String
  header6Color : Option String
  imageColor : Option String
  tableColor : Option String
  minElementWidth : Option ℚ
  minElementHeight : Option ℚ
  embedColor : Option String
  density : Option ℚ
  minimapScaling : Option ℚ
  lineSpacing : Option ℚ
  textDensity : Option ℚ
deriving DecidableEq

/-- The merge step of `loadSettings` when `loadData` returned a record:
start from a copy of `DEFAULT_SETTINGS`, set `disabledFiles` to the persisted
value only when it is list-shaped (else to `[]`), and copy every other
present key verbatim — no clamping or validation. -/
def mergeData (d : PersistedData) : MinimapSettings where
  disabledFiles := match d.disabledFiles with
    | some (.list xs) => xs
    | _ => []
  width := d.width.getD DEFAULT_SETTINGS.width
  lineHeight := d.lineHeight.getD DEFAULT_SETTINGS.lineHeight
  minimapOpacity := d.minimapOpacity.getD DEFAULT_SETTINGS.minimapOpacity
  showMinimap := d.showMinimap.getD DEFAULT_SETTINGS.showMinimap
  showHeaders := d.showHeaders.getD DEFAULT_SETTINGS.showHeaders
  showLists := d.showLists.getD DEFAULT_SETTINGS.showLists
  showCodeBlocks := d.showCodeBlocks.getD DEFAULT_SETTINGS.showCodeBlocks
  headerColor := d.headerColor.getD DEFAULT_SETTINGS.headerColor
  textColor := d.textColor.getD DEFAULT_SETTINGS.textColor
  codeBlockColor := d.codeBlockColor.getD DEFAULT_SETTINGS.codeBlockColor
  indicatorColor := d.indicatorColor.getD DEFAULT_SETTINGS.indicatorColor
  indicatorOpacity := d.indicatorOpacity.getD DEFAULT_SETTINGS.indicatorOpacity
  header1Color := d.header1Color.getD DEFAULT_SETTINGS.header1Color
  header2Color := d.header2Color.getD DEFAULT_SETTINGS.header2Color
  header3Color := d.header3Color.getD DEFAULT_SETTINGS.header3Color
  header4Color := d.header4Color.getD DEFAULT_SETTINGS.header4Color
  header5Color := d.header5Color.getD DEFAULT_SETTINGS.header5Color
  header6Color := d.header6Color.getD DEFAULT_SETTINGS.header6Color
  imageColor := d.imageColor.getD DEFAULT_SETTINGS.imageColor
  tableColor := d.tableColor.getD DEFAULT_SETTINGS.tableColor
  minElementWidth := d.minElementWidth.getD DEFAULT_SETTINGS.minElementWidth
  minElementHeight := d.minElementHeight.getD DEFAULT_SETTINGS.minElementHeight
  embedColor := d.embedColor.getD DEFAULT_SETTINGS.embedColor
  density := d.density.getD DEFAULT_SETTINGS.density
  minimapScaling := d.minimapScaling.getD DEFAULT_SETTINGS.minimapScaling
  lineSpacing := d.lineSpacing.getD DEFAULT_SETTINGS.lineSpacing
  textDensity := d.textDensity.getD DEFAULT_SETTINGS.textDensity

/-- `MinimapPlugin.loadSettings`: on a thrown load error, or when `loadData`
yields no record, the full defaults; otherwise the merge above. -/
def loadSettings : Except String (Option PersistedData) → MinimapSettings
  | .error _ => DEFAULT_SETTINGS
  | .ok none => DEFAULT_SETTINGS
  | .ok (some d) => mergeData d

/-- A persisted record with every key absent. -/
def emptyData : PersistedData where
  disabledFiles := none
  width := none
  lineHeight := none
  minimapOpacity := none
  showMinimap := none
  showHeaders := none
  showLists := none
  showCodeBlocks := none
  headerColor := none
  textColor := none
  codeBlockColor := none
  indicatorColor := none
  indicatorOpacity := none
  header1Color := none
  header2Color := none
  header3Color := none
  header4Color := none
  header5Color := none
  header6Color := none
  imageColor := none
  tableColor := none
  minElementWidth := none
  minElementHeight := none
  embedColor := none
  density := none
  minimapScaling := none
  lineSpacing := none
  textDensity := none

/-! ## Settings writes from the settings panel and the context menu -/

/-- The bounds the specification asserts for stored configuration:
the three opacity or scaling fields in `[0, 1]`, width and line height
positive. -/
def SettingsInvariant (s : MinimapSettings) : Prop :=
  (0 ≤ s.minimapOpacity ∧ s.minimapOpacity ≤ 1) ∧
  (0 ≤ s.indicatorOpacity ∧ s.indicatorOpacity ≤ 1) ∧
  (0 ≤ s.minimapScaling ∧ s.minimapScaling ≤ 1) ∧
  0 < s.width ∧ 0 < s.lineHeight

/-- Settings-panel slider handler for Minimap Scaling (slider limits 0.1 to
1.0): store the slider value. -/
def panelSetMinimapScaling (s : MinimapSettings) (v : ℚ) : MinimapSettings :=
  { s with minimapScaling := v }

/-- Settings-panel slider handler for Minimap Opacity (slider limits 0.1 to
1): store the slider value. -/
def panelSetMinimapOpacity (s : MinimapSettings) (v : ℚ) : MinimapSettings :=
  { s with minimapOpacity := v }

/-- Settings-panel slider handler for Indicator Opacity (slider limits 0.1 to
1): store the slider value. -/
def panelSetIndicatorOpacity (s : MinimapSettings) (v : ℚ) : MinimapSettings :=
  { s with indicatorOpacity := v }

/-- Settings-panel slider handler for Minimap Width (slider limits 50 to
300): store the slider value. -/
def panelSetWidth (s : MinimapSettings) (v : ℚ) : MinimapSettings :=
  { s with width := v }

/-- Settings-panel slider handler for Line Height (slider limits 1 to 10):
store the slider value. -/
def panelSetLineHeight (s : MinimapSettings) (v : ℚ) : MinimapSettings :=
  { s with lineHeight := v }

/-- Context-menu option value for entry `i` of either section:
`(i + 1) * 0.1` for `i = 0, ..., 9` (the menu offers exactly ten options). -/
def contextMenuValue (i : Nat) : ℚ := ((i : ℚ) + 1) * 0.1

/-- Context-menu scale selection: store the chosen option value. -/
def menuSelectScale (s : MinimapSettings) (i : Nat) : MinimapSettings :=
  { s with minimapScaling := contextMenuValue i }

/-- Context-menu opacity selection: store the chosen option value. -/
def menuSelectOpacity (s : MinimapSettings) (i : Nat) : MinimapSettings :=
  { s with minimapOpacity := contextMenuValue i }

/-- A persisted record whose `minimapOpacity` is 2, outside `[0, 1]`. -/
def badData : PersistedData := { emptyData with minimapOpacity := some 2 }

end Minimap

/-- Counterexample to claim C4 as stated: loading a persisted record whose
`minimapOpacity` is 2 stores 2 verbatim — the loader neither rejects nor
clamps it, so the configuration-bounds invariant is violated after a settings
write (the load). -/
theorem Minimap.loadSettings_no_clamping :
    (Minimap.loadSettings (.ok (some Minimap.badData))).minimapOpacity = 2 ∧
    ¬ Minimap.SettingsInvariant (Minimap.loadSettings (.ok (some Minimap.badData))) := by
  refine ⟨rfl, fun h => ?_⟩
  have h2 := h.1.2
  rw [show (Minimap.loadSettings (.ok (some Minimap.badData))).minimapOpacity = 2 from rfl] at h2
  norm_num at h2

namespace Minimap

/-- The context-menu option values all lie in `[0, 1]`. -/
theorem contextMenuValue_bounds (i : Nat) (hi : i < 10) :
    0 ≤ contextMenuValue i ∧ contextMenuValue i ≤ 1 := by
  have h9 : (i : ℚ) ≤ 9 := by exact_mod_cast Nat.lt_succ_iff.mp hi
  have h0 : (0 : ℚ) ≤ (i : ℚ) := Nat.cast_nonneg i
  rw [contextMenuValue]
  constructor <;> nlinarith

end Minimap

/-- Claim C4 amended: the settings-panel slider handlers (for values within
the documented slider limits) and the context-menu selections preserve the
configuration-bounds invariant, and the defaults and default-loads satisfy
it; but `loadSettings` copies persisted values verbatim without clamping, so
the invariant does not survive loading an out-of-range persisted record. -/
theorem Minimap.settings_writes_within_bounds
    (s : Minimap.MinimapSettings) (v w lh : ℚ) (i : Nat)
    (hs : Minimap.SettingsInvariant s) :
    (0.1 ≤ v → v ≤ 1 →
      Minimap.SettingsInvariant (Minimap.panelSetMinimapScaling s v) ∧
      Minimap.SettingsInvariant (Minimap.panelSetMinimapOpacity s v) ∧
      Minimap.SettingsInvariant (Minimap.panelSetIndicatorOpacity s v)) ∧
    (50 ≤ w → w ≤ 300 → Minimap.SettingsInvariant (Minimap.panelSetWidth s w)) ∧
    (1 ≤ lh → lh ≤ 10 → Minimap.SettingsInvariant (Minimap.panelSetLineHeight s lh)) ∧
    (i < 10 →
      Minimap.SettingsInvariant (Minimap.menuSelectScale s i) ∧
      Minimap.SettingsInvariant (Minimap.menuSelectOpacity s i)) ∧
    Minimap.SettingsInvariant Minimap.DEFAULT_SETTINGS ∧
    (∀ e : String, Minimap.SettingsInvariant (Minimap.loadSettings (.error e))) ∧
    Minimap.SettingsInvariant (Minimap.loadSettings (.ok none)) := by
  obtain ⟨hmo, hio, hms, hw, hlh⟩ := hs
  have hdef : Minimap.SettingsInvariant Minimap.DEFAULT_SETTINGS := by
    refine ⟨⟨?_, ?_⟩, ⟨?_, ?_⟩, ⟨?_, ?_⟩, ?_, ?_⟩ <;> norm_num [Minimap.DEFAULT_SETTINGS]
  refine ⟨?_, ?_, ?_, ?_, hdef, fun _ => hdef, hdef⟩
  · intro h1 h2
    have h0 : (0 : ℚ) ≤ v := le_trans (by norm_num) h1
    exact ⟨⟨hmo, hio, ⟨h0, h2⟩, hw, hlh⟩,
           ⟨⟨h0, h2⟩, hio, hms, hw, hlh⟩,
           ⟨hmo, ⟨h0, h2⟩, hms, hw, hlh⟩⟩
  · intro h1 _
    exact ⟨hmo, hio, hms, lt_of_lt_of_le (by norm_num) h1, hlh⟩
  · intro h1 _
    exact ⟨hmo, hio, hms, hw, lt_of_lt_of_le (by norm_num) h1⟩
  · intro hi
    obtain ⟨m0, m1⟩ := Minimap.contextMenuValue_bounds i hi
    exact ⟨⟨hmo, hio, ⟨m0, m1⟩, hw, hlh⟩, ⟨⟨m0, m1⟩, hio, hms, hw, hlh⟩⟩

/-- Witness for the amended C4 at the default settings: an in-limits panel
value 0.5, width 150, line height 4, and menu option index 3. -/
theorem Minimap.settings_writes_within_bounds_witness :
    Minimap.SettingsInvariant Minimap.DEFAULT_SETTINGS ∧
    (0.1 : ℚ) ≤ 0.5 ∧ (0.5 : ℚ) ≤ 1 ∧ (3 : Nat) < 10 ∧
    Minimap.SettingsInvariant (Minimap.panelSetMinimapScaling Minimap.DEFAULT_SETTINGS 0.5) ∧
    Minimap.SettingsInvariant (Minimap.menuSelectOpacity Minimap.DEFAULT_SETTINGS 3) := by
  have hdef : Minimap.SettingsInvariant Minimap.DEFAULT_SETTINGS := by
    refine ⟨⟨?_, ?_⟩, ⟨?_, ?_⟩, ⟨?_, ?_⟩, ?_, ?_⟩ <;> norm_num [Minimap.DEFAULT_SETTINGS]
  have happ := Minimap.settings_writes_within_bounds Minimap.DEFAULT_SETTINGS 0.5 150 4 3 hdef
  exact ⟨hdef, by norm_num, by norm_num, by norm_num,
    (happ.1 (by norm_num) (by norm_num)).1,
    (happ.2.2.2.1 (by norm_num)).2⟩

namespace Minimap

/-- A persisted record whose `disabledFiles` is present but not list-shaped. -/
def nonListData : PersistedData := { emptyData with disabledFiles := some .nonList }

end Minimap

/-- Claim C7: on settings load, a non-list-shaped `disabledFiles` is
discarded (the loaded settings get `[]`), a list-shaped one is kept, every
missing key falls back to its documented default while the rest of the load
proceeds, and any load failure (or absent data) yields the full defaults. -/
theorem Minimap.loadSettings_recovery :
    (∀ e : String, Minimap.loadSettings (.error e) = Minimap.DEFAULT_SETTINGS) ∧
    Minimap.loadSettings (.ok none) = Minimap.DEFAULT_SETTINGS ∧
    (∀ d : Minimap.PersistedData,
      (d.disabledFiles = none ∨ d.disabledFiles = some .nonList) →
      (Minimap.loadSettings (.ok (some d))).disabledFiles = []) ∧
    (∀ (d : Minimap.PersistedData) (xs : List String),
      d.disabledFiles = some (.list xs) →
      (Minimap.loadSettings (.ok (some d))).disabledFiles = xs) ∧
    (∀ d : Minimap.PersistedData,
      (d.width = none →
        (Minimap.loadSettings (.ok (some d))).width = Minimap.DEFAULT_SETTINGS.width) ∧
      (d.lineHeight = none →
        (Minimap.loadSettings (.ok (some d))).lineHeight = Minimap.DEFAULT_SETTINGS.lineHeight) ∧
      (d.minimapOpacity = none →
        (Minimap.loadSettings (.ok (some d))).minimapOpacity = Minimap.DEFAULT_SETTINGS.minimapOpacity) ∧
      (d.showMinimap = none →
        (Minimap.loadSettings (.ok (some d))).showMinimap = Minimap.DEFAULT_SETTINGS.showMinimap) ∧
      (d.showHeaders = none →
        (Minimap.loadSettings (.ok (some d))).showHeaders = Minimap.DEFAULT_SETTINGS.showHeaders) ∧
      (d.showLists = none →
        (Minimap.loadSettings (.ok (some d))).showLists = Minimap.DEFAULT_SETTINGS.showLists) ∧
      (d.showCodeBlocks = none →
        (Minimap.loadSettings (.ok (some d))).showCodeBlocks = Minimap.DEFAULT_SETTINGS.showCodeBlocks) ∧
      (d.headerColor = none →
        (Minimap.loadSettings (.ok (some d))).headerColor = Minimap.DEFAULT_SETTINGS.headerColor) ∧
      (d.textColor = none →
        (Minimap.loadSettings (.ok (some d))).textColor = Minimap.DEFAULT_SETTINGS.textColor) ∧
      (d.codeBlockColor = none →
        (Minimap.loadSettings (.ok (some d))).codeBlockColor = Minimap.DEFAULT_SETTINGS.codeBlockColor) ∧
      (d.indicatorColor = none →
        (Minimap.loadSettings (.ok (some d))).indicatorColor = Minimap.DEFAULT_SETTINGS.indicatorColor) ∧
      (d.indicatorOpacity = none →
        (Minimap.loadSettings (.ok (some d))).indicatorOpacity = Minimap.DEFAULT_SETTINGS.indicatorOpacity) ∧
      (d.header1Color = none →
        (Minimap.loadSettings (.ok (some d))).header1Color = Minimap.DEFAULT_SETTINGS.header1Color) ∧
      (d.header2Color = none →
        (Minimap.loadSettings (.ok (some d))).header2Color = Minimap.DEFAULT_SETTINGS.header2Color) ∧
      (d.header3Color = none →
        (Minimap.loadSettings (.ok (some d))).header3Color = Minimap.DEFAULT_SETTINGS.header3Color) ∧
      (d.header4Color = none →
        (Minimap.loadSettings (.ok (some d))).header4Color = Minimap.DEFAULT_SETTINGS.header4Color) ∧
      (d.header5Color = none →
        (Minimap.loadSettings (.ok (some d))).header5Color = Minimap.DEFAULT_SETTINGS.header5Color) ∧
      (d.header6Color = none →
        (Minimap.loadSettings (.ok (some d))).header6Color = Minimap.DEFAULT_SETTINGS.header6Color) ∧
      (d.imageColor = none →
        (Minimap.loadSettings (.ok (some d))).imageColor = Minimap.DEFAULT_SETTINGS.imageColor) ∧
      (d.tableColor = none →
        (Minimap.loadSettings (.ok (some d))).tableColor = Minimap.DEFAULT_SETTINGS.tableColor) ∧
      (d.minElementWidth = none →
        (Minimap.loadSettings (.ok (some d))).minElementWidth = Minimap.DEFAULT_SETTINGS.minElementWidth) ∧
      (d.minElementHeight = none →
        (Minimap.loadSettings (.ok (some d))).minElementHeight = Minimap.DEFAULT_SETTINGS.minElementHeight) ∧
      (d.embedColor = none →
        (Minimap.loadSettings (.ok (some d))).embedColor = Minimap.DEFAULT_SETTINGS.embedColor) ∧
      (d.density = none →
        (Minimap.loadSettings (.ok (some d))).density = Minimap.DEFAULT_SETTINGS.density) ∧
      (d.minimapScaling = none →
        (Minimap.loadSettings (.ok (some d))).minimapScaling = Minimap.DEFAULT_SETTINGS.minimapScaling) ∧
      (d.lineSpacing = none →
        (Minimap.loadSettings (.ok (some d))).lineSpacing = Minimap.DEFAULT_SETTINGS.lineSpacing) ∧
      (d.textDensity = none →
        (Minimap.loadSettings (.ok (some d))).textDensity = Minimap.DEFAULT_SETTINGS.textDensity)) := by
  refine ⟨fun _ => rfl, rfl, ?_, ?_, ?_⟩
  · intro d h
    rcases h with h | h <;> simp [Minimap.loadSettings, Minimap.mergeData, h]
  · intro d xs h
    simp [Minimap.loadSettings, Minimap.mergeData, h]
  · intro d
    refine ⟨?_, ?_, ?_, ?_, ?_, ?_, ?_, ?_, ?_, ?_, ?_, ?_, ?_, ?_, ?_, ?_, ?_, ?_,
      ?_, ?_, ?_, ?_, ?_, ?_, ?_, ?_, ?_⟩ <;>
      · intro h
        simp [Minimap.loadSettings, Minimap.mergeData, h]

/-- Witness for C7: a record with a non-list `disabledFiles` loads with the
empty disabled set, and a failed load yields the defaults. -/
theorem Minimap.loadSettings_recovery_witness :
    Minimap.nonListData.disabledFiles = some .nonList ∧
    (Minimap.loadSettings (.ok (some Minimap.nonListData))).disabledFiles = [] ∧
    Minimap.loadSettings (.error "io failure") = Minimap.DEFAULT_SETTINGS :=
  ⟨rfl, Minimap.loadSettings_recovery.2.2.1 Minimap.nonListData (Or.inr rfl),
    Minimap.loadSettings_recovery.1 "io failure"⟩

/-- Claim C9: `isMinimapEnabledForFile(filePath)` returns true exactly when
`showMinimap` is true and the path is not in `disabledFiles`; in particular
it is false for every path when `showMinimap` is false. -/
theorem Minimap.isMinimapEnabledForFile_spec
    (s : Minimap.MinimapSettings) (p : String) :
    (Minimap.isMinimapEnabledForFile s p = true ↔
      (s.showMinimap = true ∧ p ∉ s.disabledFiles)) ∧
    (s.showMinimap = false → Minimap.isMinimapEnabledForFile s p = false) := by
  constructor
  · simp [Minimap.isMinimapEnabledForFile]
  · intro h
    simp [Minimap.isMinimapEnabledForFile, h]

/-- Witness for C9 at settings with the minimap globally hidden: the file
`x.md` was never placed in the disabled set, yet the check returns false. -/
theorem Minimap.isMinimapEnabledForFile_spec_witness :
    Minimap.settingsHidden.showMinimap = false ∧
    Minimap.isMinimapEnabledForFile Minimap.settingsHidden "x.md" = false :=
  ⟨rfl, (Minimap.isMinimapEnabledForFile_spec Minimap.settingsHidden "x.md").2 rfl⟩

namespace Minimap

/-- The per-file toggle command body (src `main`, command
`toggle-minimap-for-current-file`): look up the active path in
`disabledFiles`; if absent, push it; if present, splice out its first
occurrence. -/
def toggleDisabledFile (l : List String) (p : String) : List String :=
  if l.contains p then l.erase p else l ++ [p]

end Minimap

/-- Claim C10: on a duplicate-free disabled list, the per-file toggle flips
the active path's membership, leaves every other entry's membership
unchanged, and running it twice restores the original membership. -/
theorem Minimap.toggleDisabledFile_involution
    (l : List String) (p : String) (hnd : l.Nodup) :
    (p ∈ Minimap.toggleDisabledFile l p ↔ p ∉ l) ∧
    (∀ q, q ≠ p → (q ∈ Minimap.toggleDisabledFile l p ↔ q ∈ l)) ∧
    (∀ q, q ∈ Minimap.toggleDisabledFile (Minimap.toggleDisabledFile l p) p ↔ q ∈ l) := by
  by_cases hp : p ∈ l
  · have hc : l.contains p = true := by simpa using hp
    have ht : Minimap.toggleDisabledFile l p = l.erase p := by
      unfold Minimap.toggleDisabledFile
      rw [if_pos hc]
    have hpe : p ∉ l.erase p := List.Nodup.not_mem_erase hnd
    have hc2 : (l.erase p).contains p = false := by
      simpa using hpe
    have ht2 : Minimap.toggleDisabledFile (l.erase p) p = l.erase p ++ [p] := by
      unfold Minimap.toggleDisabledFile
      rw [if_neg (by simpa using hpe)]
    refine ⟨?_, ?_, ?_⟩
    · rw [ht]
      simp [hpe, hp]
    · intro q hq
      rw [ht]
      exact List.mem_erase_of_ne hq
    · intro q
      rw [ht, ht2, List.mem_append]
      by_cases hqp : q = p
      · subst hqp
        simp [hp, hpe]
      · simp [List.mem_erase_of_ne hqp, hqp]
  · have hc : l.contains p = false := by
      simpa using hp
    have ht : Minimap.toggleDisabledFile l p = l ++ [p] := by
      unfold Minimap.toggleDisabledFile
      rw [if_neg (by simpa using hp)]
    have hc2 : (l ++ [p]).contains p = true := by simp
    have ht2 : Minimap.toggleDisabledFile (l ++ [p]) p = (l ++ [p]).erase p := by
      unfold Minimap.toggleDisabledFile
      rw [if_pos hc2]
    have herase : (l ++ [p]).erase p = l := by
      rw [List.erase_append_right _ hp, List.erase_cons_head, List.append_nil]
    refine ⟨?_, ?_, ?_⟩
    · rw [ht]
      simp [hp]
    · intro q hq
      rw [ht, List.mem_append]
      simp [hq]
    · intro q
      rw [ht, ht2, herase]

/-- Witness for C10 on the duplicate-free list `[a.md, b.md]` toggling
`b.md`. -/
theorem Minimap.toggleDisabledFile_involution_witness :
    List.Nodup ["a.md", "b.md"] ∧
    ("b.md" ∈ Minimap.toggleDisabledFile ["a.md", "b.md"] "b.md" ↔
      "b.md" ∉ ["a.md", "b.md"]) :=
  ⟨by decide,
    (Minimap.toggleDisabledFile_involution ["a.md", "b.md"] "b.md" (by decide)).1⟩

namespace Minimap

/-! ## Listener registration model (`MinimapRenderer.attach` / `detach`)

Listeners registered on the canvas element are discarded with the element
when `detach` removes it, so they are counted here and zeroed on removal.
The editor scroll listener is the stable bound method `onEditorScroll`
(registering the same function twice is a no-op for the DOM), so it is a
flag; the `document`-level mouseup/mouseleave handlers are fresh anonymous
closures on every `attach`, so they are counted. -/

structure ListenerState where
  editorScroll : Bool
  canvasMousedown : Nat
  canvasMousemove : Nat
  canvasContextmenu : Nat
  docMouseup : Nat
  docMouseleave : Nat
deriving DecidableEq

/-- The renderer-owned mutable state: the bound canvas (if any) and the
listeners currently registered. -/
structure RendererState where
  canvas : Option Canvas
  listeners : ListenerState

/-- `MinimapRenderer.attach`: no-op when the view is not a markdown view or a
canvas is already bound; otherwise create the canvas, register the editor
scroll listener (when the scroller element exists), the canvas
mousedown/mousemove/contextmenu listeners, the document-level
mouseup/mouseleave listeners, bind the canvas, and run the initial
`update`. -/
def attach (s : MinimapSettings) (env : Env)
    (isMarkdownView hasEditorElement : Bool) (ed : Option EditorState)
    (st : RendererState) : RendererState :=
  if !isMarkdownView then st
  else match st.canvas with
  | some _ => st
  | none =>
    let l0 := st.listeners
    let l1 := if hasEditorElement then { l0 with editorScroll := true } else l0
    let l2 := { l1 with
      canvasMousedown := l1.canvasMousedown + 1
      canvasMousemove := l1.canvasMousemove + 1
      docMouseup := l1.docMouseup + 1
      docMouseleave := l1.docMouseleave + 1
      canvasContextmenu := l1.canvasContextmenu + 1 }
    { canvas := update s env ed (some (freshCanvas s env)), listeners := l2 }

/-- `MinimapRenderer.detach`: remove the canvas if bound (its element-level
listeners disappear with it), then remove the editor scroll listener when
the markdown view and its scroller element are still reachable. The
document-level mouseup/mouseleave listeners are not touched. -/
def detach (isMarkdownView hasEditorElement : Bool)
    (st : RendererState) : RendererState :=
  let st1 := match st.canvas with
    | some _ =>
      { canvas := none
        listeners := { st.listeners with
          canvasMousedown := 0
          canvasMousemove := 0
          canvasContextmenu := 0 } }
    | none => st
  if isMarkdownView && hasEditorElement then
    { st1 with listeners := { st1.listeners with editorScroll := false } }
  else st1

/-- A renderer before `attach`: no canvas, nothing registered. -/
def rendererInit : RendererState where
  canvas := none
  listeners :=
    { editorScroll := false
      canvasMousedown := 0
      canvasMousemove := 0
      canvasContextmenu := 0
      docMouseup := 0
      docMouseleave := 0 }

/-- The state after one `attach` on a markdown view with a scroller element
(the editor state is left absent: `update` then only sets the opacity
property, which is irrelevant to the listener bookkeeping). -/
def attachedOnce : RendererState :=
  attach DEFAULT_SETTINGS cexEnv true true none rendererInit

end Minimap

/-- Claim C8 evidence: after `attach` then `detach` on a fresh renderer with
a markdown view and scroller present, the canvas is removed, the editor
scroll listener is removed, and a second `detach` changes nothing
(idempotence) — but the document-level mouseup and mouseleave listeners that
`attach` registered are still registered, contradicting the claim that
`detach()` removes every listener `attach()` registered. -/
theorem Minimap.detach_leaves_document_listeners :
    (Minimap.detach true true Minimap.attachedOnce).canvas = none ∧
    (Minimap.detach true true Minimap.attachedOnce).listeners.editorScroll = false ∧
    Minimap.detach true true (Minimap.detach true true Minimap.attachedOnce)
      = Minimap.detach true true Minimap.attachedOnce ∧
    Minimap.attachedOnce.listeners.docMouseup = 1 ∧
    Minimap.attachedOnce.listeners.docMouseleave = 1 ∧
    (Minimap.detach true true Minimap.attachedOnce).listeners.docMouseup = 1 ∧
    (Minimap.detach true true Minimap.attachedOnce).listeners.docMouseleave = 1 := by
  refine ⟨rfl, rfl, rfl, rfl, rfl, rfl, rfl⟩
